import Mathlib

/-!
Verification development for the MetaMedAI research pipeline.

The repository orchestrates a three-stage pipeline (literature retrieval,
statistical processing, report synthesis) behind a Flask endpoint.  This file
gives a shallow embedding of the deterministic core of that code:

* the markdown-fence cleaning and JSON decoding performed at every stage
  boundary (`src/src/agents/literature_agent.py`, `data_agent.py`,
  `report_agent.py`),
* the research-method keyword classifier
  (`LiteratureAgent._classify_research_method`),
* the PubMed tool's error fallback (`PubMedSearchTool._run`),
* the publish-year derivation (`DataProcessTool._parse_publish_year`),
* the pipeline orchestrator (`ResearchRouterChain.run`),
* the report file naming (`ReportAgent.run`),
* the HTTP parameter validation and config construction (`app.py`).

Text is modelled as `List Char` where the claims need string surgery and as
`String` where only equality matters.  External collaborators (the LLM, the
Entrez API, pandas/matplotlib, the filesystem) are modelled as parameters or
as outcome values handed to the embedded functions.
-/

/-! ## Character and string primitives (Python `str` operations) -/

/-- Whitespace recognised by Python `str.strip()` on the texts this code
handles, which coincides with the whitespace accepted by the JSON decoder:
space, tab, newline, carriage return. -/
def isWsChar (c : Char) : Bool :=
  c == ' ' || c == '\t' || c == '\n' || c == '\r'

/-- Model of Python `str.startswith`: `isPre pat l` is true when `pat` is an
initial segment of `l`. -/
def isPre : List Char → List Char → Bool
  | [], _ => true
  | _ :: _, [] => false
  | a :: as, b :: bs => a == b && isPre as bs

/-- Model of Python's substring test `pat in l` for a non-empty `pat`:
scans every suffix for a match of `pat` at its head. -/
def scanP (pat : List Char) : List Char → Bool
  | [] => false
  | c :: rest => isPre pat (c :: rest) || scanP pat rest

/-- Left part of Python `str.strip()`: drop leading whitespace. -/
def lstrip (l : List Char) : List Char := l.dropWhile isWsChar

/-- Right part of Python `str.strip()`: drop trailing whitespace. -/
def rstrip (l : List Char) : List Char := (l.reverse.dropWhile isWsChar).reverse

/-- Model of Python `str.strip()` with no arguments. -/
def stripL (l : List Char) : List Char := rstrip (lstrip l)

/-- Helper for the split functions: prepend a character to the first segment
of a segment list. -/
def consFirst (c : Char) : List (List Char) → List (List Char)
  | [] => [[c]]
  | seg :: rest => (c :: seg) :: rest

/-- The three-backtick markdown fence marker (the escape \x60 is the
backtick character, code point 96). -/
def fenceTok : List Char := ['\x60', '\x60', '\x60']

/-- The four characters of the fence language tag removed by
`replace("json", "")` at the stage boundaries. -/
def jsonTok : List Char := ['j', 's', 'o', 'n']

/-- Model of Python `text.split` on the three-backtick fence marker:
left-to-right, non-overlapping occurrences separate the segments
(the escape \x60 is the backtick character). -/
def splitFence : List Char → List (List Char)
  | '\x60' :: '\x60' :: '\x60' :: rest => [] :: splitFence rest
  | c :: rest => consFirst c (splitFence rest)
  | [] => [[]]

/-- Model of Python `text.replace` removing every occurrence of the four
characters `json`, scanning left to right without overlap. -/
def removeJson : List Char → List Char
  | 'j' :: 's' :: 'o' :: 'n' :: rest => removeJson rest
  | c :: rest => c :: removeJson rest
  | [] => []

/-- The markdown-fence cleaning applied verbatim at four places in the code
(`LiteratureAgent.run`, `DataAgent.run` on its input and on its output, and
`ReportAgent._parse_input_data`): strip the text; if it starts with a fence
marker, keep the first fenced segment, delete every occurrence of the four
characters `json`, and strip again. -/
def cleanOutput (s : List Char) : List Char :=
  let t := stripL s
  if isPre fenceTok t then stripL (removeJson ((splitFence t).getD 1 []))
  else t

/-- Model of Python `date_str.split` on a single dash, used by
`DataProcessTool._parse_publish_year`. -/
def splitDash : List Char → List (List Char)
  | [] => [[]]
  | c :: rest => if c == '-' then [] :: splitDash rest else consFirst c (splitDash rest)

/-! ## JSON values and a model of Python `json.loads`

The stages decode model completions with `json.loads`.  `jsonLoads` models
that strict decoder on the JSON fragment the pipeline exchanges: objects,
arrays, strings with the common escapes, integer numbers, booleans and null.
(Fractional numbers and `\u` escapes are outside the model.) -/

inductive JVal where
  | jnull : JVal
  | jbool : Bool → JVal
  | jnum : Int → JVal
  | jstr : List Char → JVal
  | jarr : List JVal → JVal
  | jobj : List (List Char × JVal) → JVal

/-- The short escape sequences of the JSON grammar, as (letter, decoded)
pairs: quote, backslash, slash, newline, tab, carriage return, backspace
(code 8) and form feed (code 12). -/
def escTable : List (Char × Char) :=
  [('"', '"'), ('\\', '\\'), ('/', '/'), ('n', '\n'), ('t', '\t'), ('r', '\r'),
   ('b', Char.ofNat 8), ('f', Char.ofNat 12)]

/-- JSON string escapes accepted by the decoder model, looked up in
`escTable`. -/
def escChar (e : Char) : Option Char :=
  (escTable.find? (fun p => p.1 == e)).map Prod.snd

/-- Decode the body of a JSON string after the opening quote; returns the
decoded characters and the input after the closing quote. -/
def parseStr : List Char → Option (List Char × List Char)
  | [] => none
  | c :: rest =>
    if c == '"' then some ([], rest)
    else if c == '\\' then
      match rest with
      | [] => none
      | e :: rest2 =>
        match escChar e with
        | some ec => (parseStr rest2).map (fun p => (ec :: p.1, p.2))
        | none => none
    else if c.toNat < 32 then none
    else (parseStr rest).map (fun p => (c :: p.1, p.2))

/-- Accumulate a run of decimal digits. -/
def grabDigits : List Char → Nat → Nat × List Char
  | [], acc => (acc, [])
  | c :: rest, acc =>
    if c.isDigit then grabDigits rest (acc * 10 + (c.toNat - 48)) else (acc, c :: rest)

/-- Decode an unsigned JSON integer (strict leading-zero handling: a leading
zero terminates the number, as in the JSON grammar). -/
def parseUnsigned : List Char → Option (Nat × List Char)
  | [] => none
  | c :: rest =>
    if c == '0' then some (0, rest)
    else if c.isDigit then some (grabDigits rest (c.toNat - 48))
    else none

/-- Decode a JSON integer with optional leading minus sign. -/
def parseNum : List Char → Option (Int × List Char)
  | '-' :: rest => (parseUnsigned rest).map (fun p => (-(p.1 : Int), p.2))
  | l => (parseUnsigned l).map (fun p => ((p.1 : Int), p.2))

mutual

/-- Decode one JSON value from the front of the input (fuel-indexed). -/
def parseVal : Nat → List Char → Option (JVal × List Char)
  | 0, _ => none
  | fuel + 1, input =>
    match lstrip input with
    | '\x7b' :: rest =>
      (match lstrip rest with
       | '\x7d' :: r2 => some (JVal.jobj [], r2)
       | r2 => (parseMembers fuel r2).map (fun p => (JVal.jobj p.1, p.2)))
    | '[' :: rest =>
      (match lstrip rest with
       | ']' :: r2 => some (JVal.jarr [], r2)
       | r2 => (parseItems fuel r2).map (fun p => (JVal.jarr p.1, p.2)))
    | '"' :: rest => (parseStr rest).map (fun p => (JVal.jstr p.1, p.2))
    | 't' :: 'r' :: 'u' :: 'e' :: rest => some (JVal.jbool true, rest)
    | 'f' :: 'a' :: 'l' :: 's' :: 'e' :: rest => some (JVal.jbool false, rest)
    | 'n' :: 'u' :: 'l' :: 'l' :: rest => some (JVal.jnull, rest)
    | l => (parseNum l).map (fun p => (JVal.jnum p.1, p.2))

/-- Decode the members of a JSON object after the opening brace
(fuel-indexed); consumes the closing brace. -/
def parseMembers : Nat → List Char → Option (List (List Char × JVal) × List Char)
  | 0, _ => none
  | fuel + 1, input =>
    match lstrip input with
    | '"' :: rest =>
      (match parseStr rest with
       | some (key, r1) =>
         (match lstrip r1 with
          | ':' :: r2 =>
            (match parseVal fuel r2 with
             | some (v, r3) =>
               (match lstrip r3 with
                | ',' :: r4 => (parseMembers fuel r4).map (fun p => ((key, v) :: p.1, p.2))
                | '\x7d' :: r4 => some ([(key, v)], r4)
                | _ => none)
             | none => none)
          | _ => none)
       | none => none)
    | _ => none

/-- Decode the items of a JSON array after the opening bracket
(fuel-indexed); consumes the closing bracket. -/
def parseItems : Nat → List Char → Option (List JVal × List Char)
  | 0, _ => none
  | fuel + 1, input =>
    match parseVal fuel input with
    | some (v, r1) =>
      (match lstrip r1 with
       | ',' :: r2 => (parseItems fuel r2).map (fun p => (v :: p.1, p.2))
       | ']' :: r2 => some ([v], r2)
       | _ => none)
    | none => none

end

/-- Model of Python `json.loads`: decode one value and require only
whitespace to remain. -/
def jsonLoads (s : List Char) : Option JVal :=
  match parseVal (s.length + 1) s with
  | some (v, rest) => if lstrip rest = [] then some v else none
  | none => none

/-- Association-list lookup used by `jlookup`. -/
def lookupKv (k : List Char) : List (List Char × JVal) → Option JVal
  | [] => none
  | (k2, v) :: rest => if k == k2 then some v else lookupKv k rest

/-- Field lookup in a decoded JSON object (Python `dict` subscript /
`dict.get`): `none` when the value is not an object or lacks the key. -/
def jlookup (k : List Char) : JVal → Option JVal
  | JVal.jobj kvs => lookupKv k kvs
  | _ => none

/-! ## Stage-boundary parsing models (C2, C3)

Each stage consumes text through the same fence-cleaning plus `json.loads`
logic, but the three `except` handlers differ.  The decoder's diagnostic
string (Python's `str(e)` on `JSONDecodeError`) is passed in as a parameter
`diag`, since its exact wording belongs to the external `json` library. -/

/-- The error message built by `LiteratureAgent.run` on a decode failure:
it interpolates both the diagnostic and the raw model output. -/
def litErrMsg (diag raw : List Char) : List Char :=
  "结果解析失败：".toList ++ diag ++ "，原始输出：".toList ++ raw

/-- Model of the output-parsing tail of `LiteratureAgent.run`
(src/src/agents/literature_agent.py lines 117-131): clean the completion
text, decode it, and on `JSONDecodeError` return the error envelope whose
message carries the raw output. -/
def litParseOutput (diag raw : List Char) : JVal :=
  match jsonLoads (cleanOutput raw) with
  | some v => v
  | none =>
    JVal.jobj
      [("status".toList, JVal.jstr "error".toList),
       ("message".toList, JVal.jstr (litErrMsg diag raw)),
       ("data".toList, JVal.jarr [])]

/-- The error message built by `DataAgent.run` on a decode failure: it
interpolates only the diagnostic, not the offending text. -/
def dataErrMsg (diag : List Char) : List Char :=
  "输入数据格式错误（非有效JSON）：".toList ++ diag

/-- Model of the output-parsing tail of `DataAgent.run`
(src/src/agents/data_agent.py lines 72-86): clean the completion text,
decode it, and on `JSONDecodeError` return the error envelope with empty
statistics. -/
def dataParseOutput (diag raw : List Char) : JVal :=
  match jsonLoads (cleanOutput raw) with
  | some v => v
  | none =>
    JVal.jobj
      [("status".toList, JVal.jstr "error".toList),
       ("message".toList, JVal.jstr (dataErrMsg diag)),
       ("statistic".toList, JVal.jobj []),
       ("plot_paths".toList, JVal.jarr [])]

/-- Input to `ReportAgent._parse_input_data`: the pipeline hands it either an
already-structured record or a raw string. -/
inductive StrOrDict where
  | dict : JVal → StrOrDict
  | text : List Char → StrOrDict

/-- Model of `ReportAgent._parse_input_data`
(src/src/agents/report_agent.py lines 66-78): dictionaries pass through;
strings are cleaned and decoded; a decode failure degrades to an empty
dictionary with no error envelope at all. -/
def parseInputData : StrOrDict → JVal
  | StrOrDict.dict v => v
  | StrOrDict.text s =>
    match jsonLoads (cleanOutput s) with
    | some v => v
    | none => JVal.jobj []

/-! ## Research-method classification (C5, C10)

Model of `LiteratureAgent._classify_research_method`
(src/src/agents/literature_agent.py lines 46-60). -/

/-- Model of Python `str.lower()` on the text this classifier sees: ASCII
letters are lowercased, everything else (including the CJK trigger words) is
unchanged. -/
def lowerL (l : List Char) : List Char := l.map Char.toLower

/-- Triggers for the RCT category, checked first. -/
def rctTriggers : List (List Char) :=
  ["rct".toList, "randomized controlled trial".toList, "随机对照试验".toList]

/-- Triggers for the cohort category, checked second. -/
def cohortTriggers : List (List Char) :=
  ["cohort".toList, "队列".toList, "前瞻性".toList, "回顾性队列".toList]

/-- Triggers for the case-control category, checked third. -/
def caseControlTriggers : List (List Char) :=
  ["case-control".toList, "病例对照".toList]

/-- Triggers for the cross-sectional category, checked fourth. -/
def crossSectionalTriggers : List (List Char) :=
  ["cross-sectional".toList, "横断面".toList, "现况调查".toList]

/-- Triggers for the case-report category, checked fifth. -/
def caseReportTriggers : List (List Char) :=
  ["case report".toList, "病例报告".toList, "个案报告".toList]

/-- Python `any(keyword in text for keyword in triggers)`. -/
def anyTrigger (trigs : List (List Char)) (low : List Char) : Bool :=
  trigs.any (fun p => scanP p low)

/-- The priority-ordered keyword rule applied to the lowercased text; the
split into `classifyLow` and `classifyResearchMethod` mirrors the
`method_text_lower` local of the source. -/
def classifyLow (low : List Char) : List Char :=
  if anyTrigger rctTriggers low then "RCT研究".toList
  else if anyTrigger cohortTriggers low then "队列研究".toList
  else if anyTrigger caseControlTriggers low then "病例对照研究".toList
  else if anyTrigger crossSectionalTriggers low then "横断面研究".toList
  else if anyTrigger caseReportTriggers low then "病例报告".toList
  else "其他研究".toList

/-- Model of `LiteratureAgent._classify_research_method`. -/
def classifyResearchMethod (methodText : List Char) : List Char :=
  classifyLow (lowerL methodText)

/-! ## PubMed tool fallback (C4)

Model of `PubMedSearchTool._run` (src/src/tools/pubmed_tool.py lines
80-154).  The Entrez search/fetch collaborator is represented by its
outcome: either a list of extracted paper records or the text of the raised
exception. -/

/-- One structured literature record as built by the PubMed tool. -/
structure Paper where
  title : String
  publish_date : String
  journal_name : String
  methods_original : String
  conclusion : String
  authors : List String
deriving DecidableEq

/-- The i-th synthetic placeholder paper produced by the fallback branch. -/
def pubmedMockPaper (i : Nat) : Paper :=
  { title := "模拟论文" ++ Nat.repr i
    publish_date := "2024-01-01"
    journal_name := "模拟期刊"
    methods_original := "随机对照试验（RCT）研究，选取100例患者分为实验组和对照组"
    conclusion := "模拟结论：该治疗方案有效"
    authors := ["Author A"] }

/-- The envelope returned by the PubMed tool. -/
structure PubMedEnv where
  status : String
  message : String
  data : List Paper
deriving DecidableEq

/-- Model of `PubMedSearchTool._run`: a successful search returns the
extracted papers; any raised condition is caught and converted into an
error envelope carrying the exception text plus ten synthetic papers. -/
def pubmedRun (searchOutcome : Except String (List Paper)) : PubMedEnv :=
  match searchOutcome with
  | Except.ok papers =>
    { status := "success"
      message := "成功检索到" ++ Nat.repr papers.length ++ "篇论文"
      data := papers }
  | Except.error e =>
    { status := "error"
      message := "PubMed检索失败：" ++ e ++ "，使用模拟数据"
      data := (List.range 10).map pubmedMockPaper }

/-! ## Publish-year derivation (C6)

Model of `DataProcessTool._parse_publish_year`
(src/src/tools/data_process_tool.py lines 43-56).  The `none` input models
Python `None` reaching the falsy check `if not date_str`. -/

/-- Model of `DataProcessTool._parse_publish_year`. -/
def parsePublishYear : Option (List Char) → List Char
  | none => "未知".toList
  | some s =>
    if s = [] ∨ s = "未知".toList then "未知".toList
    else if scanP ['-'] s then (splitDash s).getD 0 []
    else if s.all Char.isDigit && s.length == 4 then s
    else "未知".toList

/-! ## Pipeline orchestrator (C1, C7)

Model of `ResearchRouterChain.run` (src/src/chains/router_chain.py lines
17-85).  The three agents are non-deterministic LLM-driven collaborators;
the orchestrator is embedded as a function of the three stage functions.
Stage envelopes are modelled with the fields the orchestrator reads. -/

/-- Envelope returned by the literature stage. -/
structure LitEnv where
  status : String
  message : String
deriving DecidableEq

/-- The `statistic` payload of the data stage; the orchestrator reads both
fields through `dict.get` with defaults, so they are optional here. -/
structure Statistic where
  total_papers : Option Nat
  methods_classified_distribution : Option (List (String × Nat))
deriving DecidableEq

/-- Envelope returned by the data stage. -/
structure DataEnv where
  status : String
  message : String
  statistic : Statistic
  plot_paths : List String
deriving DecidableEq

/-- Envelope returned by the report stage. -/
structure RepEnv where
  status : String
  message : String
  report_path : String
deriving DecidableEq

/-- The summary assembled on reaching the final stage. -/
structure Summary where
  keywords : String
  total_papers : Nat
  main_research_method : String
  report_path : String
  plot_paths : List String
deriving DecidableEq

/-- The top-level pipeline result: the `results` dictionary is modelled by
one optional field per stage envelope (a missing key is `none`). -/
structure PipelineResult where
  chain_status : String
  stage : String
  message : String
  literature_result : Option LitEnv
  data_result : Option DataEnv
  report_result : Option RepEnv
  summary : Option Summary
deriving DecidableEq

/-- Loop of `pyMaxKey`: Python `max` keeps the current best on ties and
replaces it only on a strictly larger key value. -/
def pyMaxGo (bestKey : String) (bestVal : Nat) : List (String × Nat) → String
  | [] => bestKey
  | (k, v) :: rest =>
    if bestVal < v then pyMaxGo k v rest else pyMaxGo bestKey bestVal rest

/-- Model of Python
`max(dist, key=lambda k: dist[k], default="未知")` over an
insertion-ordered mapping: the first key attaining the maximal count, or the
default on an empty mapping. -/
def pyMaxKey : List (String × Nat) → String
  | [] => "未知"
  | (k, v) :: rest => pyMaxGo k v rest

/-- Model of `ResearchRouterChain.run`, parameterised by the three stage
functions.  The typed envelopes mean no exception can escape a stage here,
so the outer `except Exception` branch of the source is unreachable in the
model. -/
def routerChainRun (litAgent : String → LitEnv) (dataAgent : LitEnv → DataEnv)
    (reportAgent : String → LitEnv → DataEnv → RepEnv) (keywords : String) :
    PipelineResult :=
  let lit := litAgent keywords
  if ¬ (lit.status ∈ (["success", "warning"] : List String)) then
    { chain_status := "failed", stage := "literature_agent", message := lit.message
      literature_result := none, data_result := none, report_result := none
      summary := none }
  else
    let dat := dataAgent lit
    if dat.status ≠ "success" then
      { chain_status := "failed", stage := "data_agent", message := dat.message
        literature_result := some lit, data_result := some dat
        report_result := none, summary := none }
    else
      let rep := reportAgent keywords lit dat
      { chain_status := if rep.status = "success" then "success" else "failed"
        stage := if rep.status ≠ "success" then "report_agent" else "completed"
        message := "完整Agent链执行完成，报告已生成"
        literature_result := some lit, data_result := some dat
        report_result := some rep
        summary := some
          { keywords := keywords
            total_papers := dat.statistic.total_papers.getD 0
            main_research_method :=
              pyMaxKey (dat.statistic.methods_classified_distribution.getD [])
            report_path := rep.report_path
            plot_paths := dat.plot_paths } }

/-! ## Report file naming (C8)

Model of the filename construction in `ReportAgent.run`
(src/src/agents/report_agent.py lines 94-98). -/

/-- One Python `str.replace(a, "_")` step on a single character. -/
def replChar (a : Char) (c : Char) : Char := if c == a then '_' else c

/-- Model of
`keywords.replace(" ", "_").replace("/", "_").replace("\\", "_")[:20]`. -/
def sanitizeKeywords (k : List Char) : List Char :=
  ((((k.map (replChar ' ')).map (replChar '/')).map (replChar '\\')).take 20)

/-- Model of `f"research_report_{safe_keywords}_{timestamp}.md"`. -/
def reportFilename (keywords timestamp : List Char) : List Char :=
  "research_report_".toList ++ sanitizeKeywords keywords ++ ['_'] ++ timestamp
    ++ ".md".toList

/-- Model of `os.path.join(self.save_path, report_filename)`. -/
def reportPath (savePath keywords timestamp : List Char) : List Char :=
  savePath ++ '/' :: reportFilename keywords timestamp

/-! ## HTTP boundary (C9)

Model of the `research` endpoint of `src/app.py`.  The inbound payload is
modelled by the fields the handler reads: a `.get` with no default is an
`Option`, and `llm_config.get("api_key")`-style lookups that are only
compared against falsy values are plain strings where the empty string
stands for both an absent key and an empty value.  The `max_papers` value is
modelled as an integer, so the `isinstance` half of its validation is
outside the model. -/

/-- The fields of the inbound request JSON that the handler reads.
`max_papers = none` models a payload whose `agent_config` lacks that key. -/
structure RequestData where
  keywords : String
  api_key : String
  base_url : String
  model_name : String
  max_papers : Option Int
  email : Option String
deriving DecidableEq

/-- The nested config dictionary built by the handler and passed to
`ResearchRouterChain` (flattened to its leaf values). -/
structure Config where
  model_name : String
  api_key : String
  base_url : String
  literature_max_papers : Int
  data_plot_format : String
  data_save_path : String
  report_save_path : String
  entrez_email : String
deriving DecidableEq

/-- Model of the config construction at src/app.py lines 76-98, given the
value found under `agent_config["max_papers"]`. -/
def buildConfig (rd : RequestData) (mp : Int) (email : String) : Config :=
  { model_name := rd.model_name, api_key := rd.api_key, base_url := rd.base_url
    literature_max_papers := mp, data_plot_format := "png"
    data_save_path := "./plots", report_save_path := "./reports"
    entrez_email := email }

/-- The JSON response of the endpoint: either one of the short error
dictionaries or the full chain result. -/
inductive Response where
  | errorResp : String → String → String → Response
  | chainResp : PipelineResult → Response
deriving DecidableEq

/-- Python `str.strip()` on a `String`, via the character-level model. -/
def stripS (s : String) : String := String.mk (stripL s.data)

/-- Python `'@' in email`. -/
def containsChar (s : String) (c : Char) : Bool := s.data.contains c

/-- Python `str(KeyError("max_papers"))`. -/
def keyErrorMaxPapers : String := "'max_papers'"

/-- Model of the `research` endpoint (src/app.py lines 14-114): request
check, parameter validation, config construction, chain invocation, and the
outer exception handler that converts the `KeyError` raised by
`agent_config["max_papers"]` into a `server`-stage failure.  The chain is a
parameter, mirroring that the handler only forwards to it. -/
def research (req : Option RequestData)
    (chainRun : Config → String → PipelineResult) : Response :=
  match req with
  | none => Response.errorResp "failed" "request" "请求参数为空，请检查输入"
  | some rd =>
    let keywords := stripS rd.keywords
    if keywords = "" then
      Response.errorResp "failed" "params" "检索关键词不能为空"
    else if rd.api_key = "" then
      Response.errorResp "failed" "params" "LLM API Key不能为空"
    else if rd.base_url = "" then
      Response.errorResp "failed" "params" "LLM Base URL不能为空"
    else if rd.model_name = "" then
      Response.errorResp "failed" "params" "模型名称不能为空"
    else if rd.max_papers.getD 10 < 1 then
      Response.errorResp "failed" "params" "检索数量必须是大于0的整数"
    else
      match rd.email with
      | none => Response.errorResp "failed" "params" "请输入有效的PubMed邮箱"
      | some email =>
        if email = "" ∨ containsChar email '@' = false then
          Response.errorResp "failed" "params" "请输入有效的PubMed邮箱"
        else
          match rd.max_papers with
          | none =>
            Response.errorResp "failed" "server"
              ("服务器处理失败：" ++ keyErrorMaxPapers)
          | some mp =>
            Response.chainResp (chainRun (buildConfig rd mp email) keywords)

/-! ## Auxiliary definitions used by the statements below -/

/-- A completion text wrapped in a json-tagged markdown fence, as in the
spec's example. -/
def wrapJson (x : List Char) : List Char :=
  "```json\n".toList ++ x ++ "\n```".toList

/-- Observation: the string payload stored under key `k` of a decoded JSON
object, if any. -/
def jstrAt (k : List Char) (v : JVal) : Option (List Char) :=
  match jlookup k v with
  | some (JVal.jstr s) => some s
  | _ => none

/-- All classifier triggers in priority order. -/
def allTriggers : List (List Char) :=
  rctTriggers ++ cohortTriggers ++ caseControlTriggers ++ crossSectionalTriggers
    ++ caseReportTriggers

/-- A literature stage that succeeds (used to exercise the orchestrator). -/
def litOkConst : String → LitEnv := fun _ => { status := "success", message := "lit ok" }

/-- A literature stage that fails (used to exercise the orchestrator). -/
def litErrConst : String → LitEnv := fun _ => { status := "error", message := "lit boom" }

/-- A data stage that returns a warning envelope. -/
def dataWarnConst : LitEnv → DataEnv := fun _ =>
  { status := "warning", message := "data warned"
    statistic := { total_papers := none, methods_classified_distribution := none }
    plot_paths := [] }

/-- A data stage that succeeds with the spec's tie-break distribution
(RCT inserted first, both counts equal). -/
def dataOkConst : LitEnv → DataEnv := fun _ =>
  { status := "success", message := "data ok"
    statistic := { total_papers := some 4
                   methods_classified_distribution :=
                     some [("RCT研究", 2), ("队列研究", 2)] }
    plot_paths := ["./plots/a.png"] }

/-- A report stage that succeeds. -/
def repOkConst : String → LitEnv → DataEnv → RepEnv := fun _ _ _ =>
  { status := "success", message := "rep ok", report_path := "./reports/r.md" }

/-- A report stage that fails. -/
def repErrConst : String → LitEnv → DataEnv → RepEnv := fun _ _ _ =>
  { status := "error", message := "rep boom", report_path := "" }

/-! ## Helper lemmas -/

theorem anyTrigger_false_of (ts : List (List Char)) (low : List Char)
    (h : ∀ p ∈ ts, scanP p low = false) : anyTrigger ts low = false := by
  simp only [anyTrigger, List.any_eq_false]
  intro p hp
  simp [h p hp]

theorem anyTrigger_true_of (ts : List (List Char)) (low : List Char) (p : List Char)
    (hp : p ∈ ts) (h : scanP p low = true) : anyTrigger ts low = true := by
  simp only [anyTrigger, List.any_eq_true]
  exact ⟨p, hp, h⟩

theorem scanP_single_mem (c : Char) : ∀ l, scanP [c] l = true → c ∈ l := by
  intro l
  induction l with
  | nil => simp [scanP]
  | cons d rest ih =>
    intro h
    simp only [scanP, isPre, Bool.and_true, Bool.or_eq_true] at h
    rcases h with h | h
    · simp only [beq_iff_eq] at h
      exact h ▸ List.mem_cons_self d rest
    · exact List.mem_cons_of_mem d (ih h)

theorem splitDash_ne_nil : ∀ s, splitDash s ≠ [] := by
  intro s
  induction s with
  | nil => simp [splitDash]
  | cons c rest ih =>
    by_cases h : c = '-'
    · simp [splitDash, h]
    · simp only [splitDash, beq_iff_eq, h, if_false]
      cases hs : splitDash rest with
      | nil => exact absurd hs ih
      | cons a t => simp [consFirst]

theorem splitDash_getD_zero :
    ∀ s : List Char, (splitDash s).getD 0 [] = s.takeWhile (fun c => !(c == '-')) := by
  intro s
  induction s with
  | nil => rfl
  | cons c rest ih =>
    by_cases h : c = '-'
    · subst h
      simp [splitDash, List.takeWhile]
    · have hb : (c == '-') = false := by simp [h]
      simp only [splitDash, hb, if_false, List.takeWhile, Bool.not_false]
      cases hs : splitDash rest with
      | nil => exact absurd hs (splitDash_ne_nil rest)
      | cons a t =>
        rw [hs] at ih
        simp only [consFirst, List.getD, List.getElem?_cons_zero, Option.getD_some] at ih ⊢
        exact congrArg (c :: ·) ih

theorem pyMaxGo_skip (bk : String) (bv : Nat) :
    ∀ l, (∀ p ∈ l, p.2 ≤ bv) → pyMaxGo bk bv l = bk := by
  intro l
  induction l with
  | nil => intro _; rfl
  | cons p rest ih =>
    intro h
    obtain ⟨k, v⟩ := p
    have hv : v ≤ bv := h (k, v) (List.mem_cons_self _ _)
    simp only [pyMaxGo, if_neg (by omega : ¬ bv < v)]
    exact ih (fun q hq => h q (List.mem_cons_of_mem _ hq))

theorem pyMaxGo_find (k : String) (v : Nat) (suf : List (String × Nat))
    (hsuf : ∀ p ∈ suf, p.2 ≤ v) :
    ∀ pre (bk : String) (bv : Nat), bv < v → (∀ p ∈ pre, p.2 < v) →
      pyMaxGo bk bv (pre ++ (k, v) :: suf) = k := by
  intro pre
  induction pre with
  | nil =>
    intro bk bv hbv _
    simp only [List.nil_append, pyMaxGo, if_pos hbv]
    exact pyMaxGo_skip k v suf hsuf
  | cons p pre' ih =>
    intro bk bv hbv hpre
    obtain ⟨k2, v2⟩ := p
    have hv2 : v2 < v := hpre (k2, v2) (List.mem_cons_self _ _)
    have hpre' : ∀ q ∈ pre', q.2 < v := fun q hq => hpre q (List.mem_cons_of_mem _ hq)
    simp only [List.cons_append, pyMaxGo]
    by_cases hlt : bv < v2
    · rw [if_pos hlt]; exact ih k2 v2 hv2 hpre'
    · rw [if_neg hlt]; exact ih bk bv hbv hpre'

theorem pyMaxKey_first_max (pre suf : List (String × Nat)) (k : String) (v : Nat)
    (hpre : ∀ p ∈ pre, p.2 < v) (hsuf : ∀ p ∈ suf, p.2 ≤ v) :
    pyMaxKey (pre ++ (k, v) :: suf) = k := by
  cases pre with
  | nil =>
    simp only [List.nil_append, pyMaxKey]
    exact pyMaxGo_skip k v suf hsuf
  | cons p pre' =>
    obtain ⟨k2, v2⟩ := p
    have hv2 : v2 < v := hpre (k2, v2) (List.mem_cons_self _ _)
    have hpre' : ∀ q ∈ pre', q.2 < v := fun q hq => hpre q (List.mem_cons_of_mem _ hq)
    simp only [List.cons_append, pyMaxKey]
    exact pyMaxGo_find k v suf hsuf pre' k2 v2 hv2 hpre'

/-! ## Claim C4 -/

/-- Claim C4: for every exception raised by the external bibliographic
search/fetch call, the Literature Stage's tool does not propagate the
exception: it returns an envelope with status "error" whose message contains
the exception text, together with a deterministic synthetic placeholder
dataset of a fixed count of papers (10) with fixed field values. -/
theorem C4_theorem (e : String) :
    (pubmedRun (Except.error e)).status = "error"
    ∧ (∃ a b : String, (pubmedRun (Except.error e)).message = a ++ e ++ b)
    ∧ (pubmedRun (Except.error e)).data.length = 10
    ∧ (pubmedRun (Except.error e)).data = (List.range 10).map pubmedMockPaper
    ∧ ∀ p ∈ (pubmedRun (Except.error e)).data,
        p.publish_date = "2024-01-01" ∧ p.journal_name = "模拟期刊"
        ∧ p.methods_original = "随机对照试验（RCT）研究，选取100例患者分为实验组和对照组"
        ∧ p.conclusion = "模拟结论：该治疗方案有效" ∧ p.authors = ["Author A"] := by
  refine ⟨rfl, ⟨"PubMed检索失败：", "，使用模拟数据", rfl⟩, ?_, rfl, ?_⟩
  · show ((List.range 10).map pubmedMockPaper).length = 10
    decide
  · show ∀ p ∈ (List.range 10).map pubmedMockPaper,
        p.publish_date = "2024-01-01" ∧ p.journal_name = "模拟期刊"
        ∧ p.methods_original = "随机对照试验（RCT）研究，选取100例患者分为实验组和对照组"
        ∧ p.conclusion = "模拟结论：该治疗方案有效" ∧ p.authors = ["Author A"]
    decide

/-! ## Claims C5 and C10: the research-method classifier -/

/-- Claim C5: research-method classification is a deterministic,
case-insensitive keyword rule over the methods text with priority order RCT
before cohort before case-control before cross-sectional before case-report:
any text containing "randomized controlled trial" in any letter case is
classified RCT, and any text containing none of the known triggers is
classified into the "other" category. -/
theorem C5_theorem (t : List Char) :
    (scanP "randomized controlled trial".toList (lowerL t) = true →
      classifyResearchMethod t = "RCT研究".toList)
    ∧ ((∀ p ∈ allTriggers, scanP p (lowerL t) = false) →
      classifyResearchMethod t = "其他研究".toList)
    ∧ (anyTrigger cohortTriggers (lowerL t) = true →
       anyTrigger rctTriggers (lowerL t) = false →
      classifyResearchMethod t = "队列研究".toList)
    ∧ (anyTrigger caseControlTriggers (lowerL t) = true →
       anyTrigger rctTriggers (lowerL t) = false →
       anyTrigger cohortTriggers (lowerL t) = false →
      classifyResearchMethod t = "病例对照研究".toList)
    ∧ (anyTrigger crossSectionalTriggers (lowerL t) = true →
       anyTrigger rctTriggers (lowerL t) = false →
       anyTrigger cohortTriggers (lowerL t) = false →
       anyTrigger caseControlTriggers (lowerL t) = false →
      classifyResearchMethod t = "横断面研究".toList)
    ∧ (anyTrigger caseReportTriggers (lowerL t) = true →
       anyTrigger rctTriggers (lowerL t) = false →
       anyTrigger cohortTriggers (lowerL t) = false →
       anyTrigger caseControlTriggers (lowerL t) = false →
       anyTrigger crossSectionalTriggers (lowerL t) = false →
      classifyResearchMethod t = "病例报告".toList)
    ∧ (∀ t', lowerL t' = lowerL t →
      classifyResearchMethod t' = classifyResearchMethod t) := by
  refine ⟨?_, ?_, ?_, ?_, ?_, ?_, ?_⟩
  · intro h
    have h1 := anyTrigger_true_of rctTriggers (lowerL t) _ (by decide) h
    simp [classifyResearchMethod, classifyLow, h1]
  · intro hall
    have h1 : anyTrigger rctTriggers (lowerL t) = false :=
      anyTrigger_false_of _ _ (fun p hp => hall p (by simp [allTriggers]; tauto))
    have h2 : anyTrigger cohortTriggers (lowerL t) = false :=
      anyTrigger_false_of _ _ (fun p hp => hall p (by simp [allTriggers]; tauto))
    have h3 : anyTrigger caseControlTriggers (lowerL t) = false :=
      anyTrigger_false_of _ _ (fun p hp => hall p (by simp [allTriggers]; tauto))
    have h4 : anyTrigger crossSectionalTriggers (lowerL t) = false :=
      anyTrigger_false_of _ _ (fun p hp => hall p (by simp [allTriggers]; tauto))
    have h5 : anyTrigger caseReportTriggers (lowerL t) = false :=
      anyTrigger_false_of _ _ (fun p hp => hall p (by simp [allTriggers]; tauto))
    simp [classifyResearchMethod, classifyLow, h1, h2, h3, h4, h5]
  · intro hc h1
    simp [classifyResearchMethod, classifyLow, h1, hc]
  · intro hc h1 h2
    simp [classifyResearchMethod, classifyLow, h1, h2, hc]
  · intro hc h1 h2 h3
    simp [classifyResearchMethod, classifyLow, h1, h2, h3, hc]
  · intro hc h1 h2 h3 h4
    simp [classifyResearchMethod, classifyLow, h1, h2, h3, h4, hc]
  · intro t' ht
    simp [classifyResearchMethod, ht]

/-- Claim C5 witness: the first conjunct applied to a mixed-case RCT text and
the second to a trigger-free text. -/
theorem C5_witness :
    classifyResearchMethod ("A Randomized CONTROLLED Trial of X".toList) = "RCT研究".toList
    ∧ classifyResearchMethod ("observational assessment of patients".toList)
        = "其他研究".toList := by
  exact ⟨(C5_theorem ("A Randomized CONTROLLED Trial of X".toList)).1 (by decide),
    (C5_theorem ("observational assessment of patients".toList)).2.1 (by decide)⟩

/-- Claim C10: classification matches triggers as raw substrings of the
lowercased text, not as whole words: every methods text whose lowercase form
contains "rct" as a contiguous substring — including inside a longer word
such as "infarct" — is classified into the RCT category, taking priority
over all later triggers present in the same text. -/
theorem C10_theorem (t : List Char) (h : scanP "rct".toList (lowerL t) = true) :
    classifyResearchMethod t = "RCT研究".toList := by
  have h1 := anyTrigger_true_of rctTriggers (lowerL t) _ (by decide) h
  simp [classifyResearchMethod, classifyLow, h1]

/-- Claim C10 witness: "infarct" contains "rct", so a methods text about
myocardial infarct patients in a cohort study is classified RCT even though
a cohort trigger is present. -/
theorem C10_witness :
    classifyResearchMethod ("myocardial infarct patients in a cohort study".toList)
      = "RCT研究".toList :=
  C10_theorem ("myocardial infarct patients in a cohort study".toList) (by decide)

/-! ## Claim C6: publish-year derivation -/

/-- Claim C6: the per-record publish-year derivation satisfies: a date
string containing a separator maps to its first segment ("2023-05" →
"2023"); a string of exactly 4 digits maps to itself; the empty string,
None, or any other shape maps to "unknown" (the source's "未知"). -/
theorem C6_theorem :
    (∀ s : List Char, scanP ['-'] s = true →
        parsePublishYear (some s) = s.takeWhile (fun c => !(c == '-')))
    ∧ (∀ s : List Char, s.all Char.isDigit = true → s.length = 4 →
        parsePublishYear (some s) = s)
    ∧ parsePublishYear none = "未知".toList
    ∧ parsePublishYear (some []) = "未知".toList
    ∧ (∀ s : List Char, scanP ['-'] s = false →
        (s.all Char.isDigit && s.length == 4) = false →
        parsePublishYear (some s) = "未知".toList) := by
  refine ⟨?_, ?_, rfl, by decide, ?_⟩
  · intro s h
    have hne : ¬ (s = [] ∨ s = "未知".toList) := by
      rintro (rfl | rfl)
      · exact absurd h (by decide)
      · exact absurd h (by decide)
    simp only [parsePublishYear, if_neg hne, h, if_true]
    exact splitDash_getD_zero s
  · intro s hd hl
    have hne : ¬ (s = [] ∨ s = "未知".toList) := by
      rintro (rfl | rfl)
      · simp at hl
      · exact absurd hd (by decide)
    have hdash : scanP ['-'] s = false := by
      by_contra hc
      rw [Bool.not_eq_false] at hc
      have hmem := scanP_single_mem '-' s hc
      have := List.all_eq_true.mp hd _ hmem
      simp at this
    have hb : (s.all Char.isDigit && s.length == 4) = true := by
      simp [hd, hl]
    simp only [parsePublishYear]
    rw [if_neg hne, if_neg (by simp [hdash]), if_pos hb]
  · intro s h hb
    by_cases hc : s = [] ∨ s = "未知".toList
    · rcases hc with rfl | rfl
      · decide
      · decide
    · simp [parsePublishYear, if_neg hc, h, hb]

/-- Claim C6 witness: the spec's concrete examples, via the theorem. -/
theorem C6_witness :
    parsePublishYear (some "2023-05".toList) = "2023".toList
    ∧ parsePublishYear (some "2023".toList) = "2023".toList
    ∧ parsePublishYear (some "".toList) = "未知".toList
    ∧ parsePublishYear none = "未知".toList := by
  refine ⟨?_, ?_, ?_, ?_⟩
  · exact (C6_theorem.1 ("2023-05".toList) (by decide)).trans (by decide)
  · exact C6_theorem.2.1 ("2023".toList) (by decide) (by decide)
  · exact C6_theorem.2.2.2.2 ("".toList) (by decide) (by decide)
  · exact C6_theorem.2.2.1

/-! ## Claim C7: dominant classified method in the summary -/

/-- Claim C7: on full pipeline success, the summary's dominant classified
method is the key with maximum count in the methods_classified_distribution
mapping, resolved to the first-encountered key in the mapping's iteration
order on ties, and to "unknown" (the source's "未知") when the distribution
mapping is empty. -/
theorem C7_theorem (litA : String → LitEnv) (dataA : LitEnv → DataEnv)
    (repA : String → LitEnv → DataEnv → RepEnv) (kw : String)
    (hl : (litA kw).status ∈ (["success", "warning"] : List String))
    (hd : (dataA (litA kw)).status = "success") :
    (∃ s : Summary,
        (routerChainRun litA dataA repA kw).summary = some s
        ∧ s.main_research_method
            = pyMaxKey
                ((dataA (litA kw)).statistic.methods_classified_distribution.getD []))
    ∧ pyMaxKey [] = "未知"
    ∧ (∀ pre suf (k : String) (v : Nat),
        (∀ p ∈ pre, p.2 < v) → (∀ p ∈ suf, p.2 ≤ v) →
        pyMaxKey (pre ++ (k, v) :: suf) = k) := by
  refine ⟨?_, rfl, fun pre suf k v hpre hsuf => pyMaxKey_first_max pre suf k v hpre hsuf⟩
  have hrun : (routerChainRun litA dataA repA kw).summary
      = some { keywords := kw
               total_papers := (dataA (litA kw)).statistic.total_papers.getD 0
               main_research_method :=
                 pyMaxKey
                   ((dataA (litA kw)).statistic.methods_classified_distribution.getD [])
               report_path := (repA kw (litA kw) (dataA (litA kw))).report_path
               plot_paths := (dataA (litA kw)).plot_paths } := by
    simp [routerChainRun, hl, hd]
  exact ⟨_, hrun, rfl⟩

/-- Claim C7 witness: a full-success run over the spec's tie-break
distribution (RCT inserted first, both counts 2) resolves to RCT. -/
theorem C7_witness :
    ∃ s : Summary,
      (routerChainRun litOkConst dataOkConst repOkConst "kw").summary = some s
      ∧ s.main_research_method
          = pyMaxKey [("RCT研究", 2), ("队列研究", 2)]
      ∧ s.main_research_method = "RCT研究" := by
  obtain ⟨s, hs, hm⟩ :=
    (C7_theorem litOkConst dataOkConst repOkConst "kw" (by decide) (by decide)).1
  exact ⟨s, hs, hm, by rw [hm]; decide⟩

/-! ## Claim C1: orchestrator transition discipline -/

/-- Claim C1 counterexample: the claim "the Orchestrator invokes the next
stage if and only if the previous stage's envelope status is success or
warning ... carrying the partial envelopes produced so far" fails on the
code: (a) a data-stage "warning" halts the pipeline before the report stage
(the result does not depend on the report agent at all); (b) a
literature-stage error is tagged correctly but the produced literature
envelope is dropped from the results; (c) a report-stage error keeps the
fixed completion message instead of the failing envelope's message. -/
theorem C1_counterexample :
    ((routerChainRun litOkConst dataWarnConst repOkConst "kw").stage = "data_agent"
      ∧ (routerChainRun litOkConst dataWarnConst repOkConst "kw").chain_status = "failed"
      ∧ (routerChainRun litOkConst dataWarnConst repOkConst "kw").report_result = none
      ∧ routerChainRun litOkConst dataWarnConst repOkConst "kw"
          = routerChainRun litOkConst dataWarnConst repErrConst "kw")
    ∧ ((routerChainRun litErrConst dataOkConst repOkConst "kw").stage = "literature_agent"
      ∧ (routerChainRun litErrConst dataOkConst repOkConst "kw").literature_result = none)
    ∧ ((routerChainRun litOkConst dataOkConst repErrConst "kw").stage = "report_agent"
      ∧ (routerChainRun litOkConst dataOkConst repErrConst "kw").chain_status = "failed"
      ∧ (routerChainRun litOkConst dataOkConst repErrConst "kw").message
          = "完整Agent链执行完成，报告已生成"
      ∧ (routerChainRun litOkConst dataOkConst repErrConst "kw").message
          ≠ (repErrConst "kw" (litOkConst "kw") (dataOkConst (litOkConst "kw"))).message) := by
  decide

/-- Claim C1 amended: the Orchestrator proceeds from the literature stage to
the data stage iff the literature status is "success" or "warning", and on a
literature error halts with stage "literature_agent" and that envelope's
message but an empty results dictionary; it proceeds from the data stage to
the report stage iff the data status is exactly "success", and otherwise
halts with stage "data_agent", that envelope's message and both produced
envelopes; once the report stage runs the pipeline always completes, with a
fixed completion message even when the report envelope is an error. -/
theorem C1_theorem (litA : String → LitEnv) (dataA : LitEnv → DataEnv)
    (repA : String → LitEnv → DataEnv → RepEnv) (kw : String) :
    (¬ (litA kw).status ∈ (["success", "warning"] : List String) →
      routerChainRun litA dataA repA kw
        = { chain_status := "failed", stage := "literature_agent"
            message := (litA kw).message, literature_result := none
            data_result := none, report_result := none, summary := none })
    ∧ ((litA kw).status ∈ (["success", "warning"] : List String) →
       (dataA (litA kw)).status ≠ "success" →
      routerChainRun litA dataA repA kw
        = { chain_status := "failed", stage := "data_agent"
            message := (dataA (litA kw)).message
            literature_result := some (litA kw)
            data_result := some (dataA (litA kw))
            report_result := none, summary := none })
    ∧ ((litA kw).status ∈ (["success", "warning"] : List String) →
       (dataA (litA kw)).status = "success" →
      (routerChainRun litA dataA repA kw).report_result
          = some (repA kw (litA kw) (dataA (litA kw)))
      ∧ (routerChainRun litA dataA repA kw).stage
          = (if (repA kw (litA kw) (dataA (litA kw))).status ≠ "success"
             then "report_agent" else "completed")
      ∧ (routerChainRun litA dataA repA kw).chain_status
          = (if (repA kw (litA kw) (dataA (litA kw))).status = "success"
             then "success" else "failed")
      ∧ (routerChainRun litA dataA repA kw).message
          = "完整Agent链执行完成，报告已生成") := by
  refine ⟨?_, ?_, ?_⟩
  · intro h
    simp [routerChainRun, h]
  · intro hl hd
    simp [routerChainRun, hl, hd]
  · intro hl hd
    refine ⟨?_, ?_, ?_, ?_⟩ <;> simp [routerChainRun, hl, hd]

/-- Claim C1 witness: the amended transition rules applied to concrete stage
functions (a failing literature stage, and a warning data stage). -/
theorem C1_witness :
    routerChainRun litErrConst dataOkConst repOkConst "kw"
      = { chain_status := "failed", stage := "literature_agent"
          message := "lit boom", literature_result := none
          data_result := none, report_result := none, summary := none }
    ∧ routerChainRun litOkConst dataWarnConst repOkConst "kw"
      = { chain_status := "failed", stage := "data_agent"
          message := "data warned"
          literature_result := some { status := "success", message := "lit ok" }
          data_result := some
            { status := "warning", message := "data warned"
              statistic := { total_papers := none
                             methods_classified_distribution := none }
              plot_paths := [] }
          report_result := none, summary := none } :=
  ⟨(C1_theorem litErrConst dataOkConst repOkConst "kw").1 (by decide),
   (C1_theorem litOkConst dataWarnConst repOkConst "kw").2.1 (by decide) (by decide)⟩

/-! ## Claim C8: report file naming -/

/-- Claim C8: the report filename is built from a sanitized keyword prefix —
path-unsafe characters replaced and the prefix truncated to a bounded length
(20) — followed by a run timestamp, so that for every keyword, two report
generations with different timestamps produce distinct file paths. -/
theorem C8_theorem (savePath keywords ts1 ts2 : List Char) (h : ts1 ≠ ts2) :
    reportPath savePath keywords ts1 ≠ reportPath savePath keywords ts2
    ∧ (sanitizeKeywords keywords).length ≤ 20 := by
  constructor
  · intro he
    apply h
    unfold reportPath reportFilename at he
    have h1 := List.append_cancel_left he
    have h2 : "research_report_".toList ++ sanitizeKeywords keywords ++ ['_'] ++ ts1
        ++ ".md".toList
        = "research_report_".toList ++ sanitizeKeywords keywords ++ ['_'] ++ ts2
        ++ ".md".toList := by
      injection h1
    simp only [List.append_assoc] at h2
    have h3 := List.append_cancel_left (List.append_cancel_left (List.append_cancel_left h2))
    exact List.append_cancel_right h3
  · simp [sanitizeKeywords, List.length_take]

/-- Claim C8 witness: two concrete generations for the same keyword with
different run timestamps give distinct paths, and the sanitized prefix is
bounded. -/
theorem C8_witness :
    reportPath "./reports".toList "diabetes mellitus RCT treatment".toList
        "20240101_120000".toList
      ≠ reportPath "./reports".toList "diabetes mellitus RCT treatment".toList
        "20240101_120001".toList
    ∧ (sanitizeKeywords "diabetes mellitus RCT treatment".toList).length ≤ 20 :=
  C8_theorem "./reports".toList "diabetes mellitus RCT treatment".toList
    "20240101_120000".toList "20240101_120001".toList (by decide)

/-! ## Claim C9: missing max_papers key at the HTTP boundary -/

/-- Claim C9: for every inbound request whose agent_config omits the
"max_papers" key while all other parameters are valid, the parameter
validation passes (substituting the default bound of 10), yet the subsequent
config construction looks up agent_config["max_papers"] directly, raising
KeyError, so the endpoint returns chain_status "failed" with stage "server"
instead of running the pipeline with the default bound; the response does
not depend on the chain at all, and the same request with max_papers present
does reach the chain. -/
theorem C9_theorem (rd : RequestData) (f g : Config → String → PipelineResult)
    (h1 : stripS rd.keywords ≠ "") (h2 : rd.api_key ≠ "") (h3 : rd.base_url ≠ "")
    (h4 : rd.model_name ≠ "") (h5 : rd.max_papers = none)
    (h6 : ∃ e, rd.email = some e ∧ e ≠ "" ∧ containsChar e '@' = true) :
    research (some rd) f
      = Response.errorResp "failed" "server" ("服务器处理失败：" ++ keyErrorMaxPapers)
    ∧ research (some rd) f = research (some rd) g
    ∧ (∀ mp : Int, 1 ≤ mp →
        ∃ c : Config,
          research (some { rd with max_papers := some mp }) f
            = Response.chainResp (f c (stripS rd.keywords))) := by
  obtain ⟨e, he, hne, hat⟩ := h6
  have key : ∀ h : Config → String → PipelineResult,
      research (some rd) h
        = Response.errorResp "failed" "server" ("服务器处理失败：" ++ keyErrorMaxPapers) := by
    intro h
    simp [research, h1, h2, h3, h4, h5, he, hne, hat]
  refine ⟨key f, (key f).trans (key g).symm, ?_⟩
  intro mp hmp
  have hmp' : ¬ mp < 1 := by omega
  refine ⟨buildConfig { rd with max_papers := some mp } mp e, ?_⟩
  simp [research, h1, h2, h3, h4, he, hne, hat, hmp']

/-- Claim C9 witness: a concrete request lacking the max_papers key but
otherwise valid yields the server-stage failure. -/
theorem C9_witness :
    research
      (some { keywords := "diabetes", api_key := "k", base_url := "u"
              model_name := "m", max_papers := none, email := some "a@b" })
      (fun _ _ =>
        { chain_status := "success", stage := "completed", message := "m"
          literature_result := none, data_result := none, report_result := none
          summary := none })
      = Response.errorResp "failed" "server" ("服务器处理失败：" ++ keyErrorMaxPapers) :=
  (C9_theorem _ _
      (fun _ _ =>
        { chain_status := "success", stage := "completed", message := "m"
          literature_result := none, data_result := none, report_result := none
          summary := none })
      (by decide) (by decide) (by decide) (by decide) rfl
      ⟨"a@b", rfl, by decide, by decide⟩).1

/-! ## Claim C2: failure contracts at the three stage boundaries -/

/-- Claim C2 counterexample: the claim that the parse-failure contract is
identical at all three use sites and always yields a status=error envelope
retaining the raw text fails at the report site: `_parse_input_data`
degrades a malformed string to an empty dictionary with no status field at
all, and the data site's message does not contain the offending raw text. -/
theorem C2_counterexample :
    parseInputData (StrOrDict.text "oops".toList) = JVal.jobj []
    ∧ jlookup "status".toList (parseInputData (StrOrDict.text "oops".toList)) = none
    ∧ jstrAt "message".toList (litParseOutput "Expecting value".toList "oops".toList)
        = some (litErrMsg "Expecting value".toList "oops".toList)
    ∧ scanP "oops".toList (dataErrMsg "Expecting value".toList) = false := by
  refine ⟨rfl, rfl, rfl, by decide⟩

/-- Claim C2 amended: for every completion text on which the shared
fence-clean-then-decode logic fails, no site raises: the literature site
returns the status=error envelope whose message retains the raw text; the
data site returns the status=error envelope whose message carries only the
decoder diagnostic (not the raw text); the report input site returns an
empty dictionary with no error envelope. -/
theorem C2_theorem (diag raw : List Char) (h : jsonLoads (cleanOutput raw) = none) :
    litParseOutput diag raw
      = JVal.jobj
          [("status".toList, JVal.jstr "error".toList),
           ("message".toList, JVal.jstr (litErrMsg diag raw)),
           ("data".toList, JVal.jarr [])]
    ∧ (∃ a b, litErrMsg diag raw = a ++ raw ++ b)
    ∧ dataParseOutput diag raw
      = JVal.jobj
          [("status".toList, JVal.jstr "error".toList),
           ("message".toList, JVal.jstr (dataErrMsg diag)),
           ("statistic".toList, JVal.jobj []),
           ("plot_paths".toList, JVal.jarr [])]
    ∧ parseInputData (StrOrDict.text raw) = JVal.jobj [] := by
  refine ⟨?_, ⟨"结果解析失败：".toList ++ diag ++ "，原始输出：".toList, [], ?_⟩, ?_, ?_⟩
  · simp [litParseOutput, h]
  · simp [litErrMsg, List.append_assoc]
  · simp [dataParseOutput, h]
  · simp [parseInputData, h]

/-- Claim C2 witness: the amended contract at a concrete malformed text. -/
theorem C2_witness :
    parseInputData (StrOrDict.text "raw stage output".toList) = JVal.jobj []
    ∧ (∃ a b, litErrMsg "diag".toList "raw stage output".toList
        = a ++ "raw stage output".toList ++ b) := by
  have h := C2_theorem "diag".toList "raw stage output".toList rfl
  exact ⟨h.2.2.2, h.2.1⟩

/-! ## Claim C3: fenced versus unwrapped completions

Helper lemmas about the character-level string model. -/

theorem lstrip_cons_nws (c : Char) (l : List Char) (h : isWsChar c = false) :
    lstrip (c :: l) = c :: l := by
  simp [lstrip, List.dropWhile_cons, h]

theorem lstrip_cons_ws (c : Char) (l : List Char) (h : isWsChar c = true) :
    lstrip (c :: l) = lstrip l := by
  simp [lstrip, List.dropWhile_cons, h]

theorem lstrip_length : ∀ l : List Char, (lstrip l).length ≤ l.length := by
  intro l
  induction l with
  | nil => simp [lstrip]
  | cons c rest ih =>
    by_cases h : isWsChar c = true
    · rw [lstrip_cons_ws c rest h]
      exact le_trans ih (by simp)
    · rw [lstrip_cons_nws c rest (by simpa using h)]

theorem head_not_ws_of_lstrip_eq (x : List Char) (hl : lstrip x = x) (hne : x ≠ []) :
    ∃ c x', x = c :: x' ∧ isWsChar c = false := by
  cases x with
  | nil => exact absurd rfl hne
  | cons c x' =>
    by_cases h : isWsChar c = true
    · exfalso
      rw [lstrip_cons_ws c x' h] at hl
      have h2 := lstrip_length x'
      rw [hl] at h2
      simp only [List.length_cons] at h2
      omega
    · exact ⟨c, x', rfl, by simpa using h⟩

theorem rstrip_append_nws (l : List Char) (c : Char) (h : isWsChar c = false) :
    rstrip (l ++ [c]) = l ++ [c] := by
  simp [rstrip, List.reverse_append, List.dropWhile_cons, h]

theorem rstrip_append_ws (l : List Char) (c : Char) (h : isWsChar c = true) :
    rstrip (l ++ [c]) = rstrip l := by
  simp [rstrip, List.reverse_append, List.dropWhile_cons, h]

theorem scanP_cons_false (pat : List Char) (c : Char) (rest : List Char)
    (h : scanP pat (c :: rest) = false) :
    isPre pat (c :: rest) = false ∧ scanP pat rest = false := by
  simp only [scanP] at h
  constructor
  · cases hb : isPre pat (c :: rest)
    · rfl
    · rw [hb] at h; simp at h
  · cases hb : scanP pat rest
    · rfl
    · rw [hb] at h; simp at h

theorem isPre_false_of_scanP_false (p : Char) (ps : List Char) (l : List Char)
    (h : scanP (p :: ps) l = false) : isPre (p :: ps) l = false := by
  cases l with
  | nil => rfl
  | cons c rest => exact (scanP_cons_false (p :: ps) c rest h).1

theorem isPre_through : ∀ (pat l g : List Char) (c : Char), c ∉ pat →
    isPre pat (l ++ c :: g) = true → isPre pat l = true := by
  intro pat
  induction pat with
  | nil => intro l g c _ _; rfl
  | cons p ps ih =>
    intro l g c hc h
    cases l with
    | nil =>
      exfalso
      simp only [List.nil_append, isPre, Bool.and_eq_true, beq_iff_eq] at h
      apply hc
      rw [← h.1]
      exact List.mem_cons_self p ps
    | cons a l' =>
      simp only [List.cons_append, isPre, Bool.and_eq_true] at h ⊢
      exact ⟨h.1, ih l' g c (fun hm => hc (List.mem_cons_of_mem p hm)) h.2⟩

theorem scanP_barrier : ∀ (pat : List Char), pat ≠ [] → ∀ (c : Char), c ∉ pat →
    ∀ a g, scanP pat a = false → scanP pat g = false →
    scanP pat (a ++ c :: g) = false := by
  intro pat hpat c hc a
  induction a with
  | nil =>
    intro g _ hg
    cases pat with
    | nil => exact absurd rfl hpat
    | cons p ps =>
      have hpc : (p == c) = false := by
        simp only [beq_eq_false_iff_ne, ne_eq]
        intro he
        apply hc
        rw [← he]
        exact List.mem_cons_self p ps
      simp only [List.nil_append, scanP, isPre, hpc, Bool.false_and, Bool.false_or]
      exact hg
  | cons d a' ih =>
    intro g ha hg
    obtain ⟨h1, h2⟩ := scanP_cons_false pat d a' ha
    have hrec := ih g h2 hg
    have hpre : isPre pat (d :: (a' ++ c :: g)) = false := by
      cases hb : isPre pat (d :: (a' ++ c :: g))
      · rfl
      · exfalso
        have := isPre_through pat (d :: a') g c hc (by simpa using hb)
        simp [h1] at this
    show scanP pat (d :: (a' ++ c :: g)) = false
    simp only [scanP, hpre, Bool.false_or]
    exact hrec

theorem not_json_shape (c : Char) (rest : List Char)
    (h : isPre jsonTok (c :: rest) = false) :
    ∀ r', c = 'j' → rest = 's' :: 'o' :: 'n' :: r' → False := by
  intro r' hc hr
  subst hc; subst hr
  simp [isPre, jsonTok] at h

theorem removeJson_id : ∀ l, scanP jsonTok l = false → removeJson l = l := by
  intro l
  induction l with
  | nil => intro _; rfl
  | cons c rest ih =>
    intro h
    obtain ⟨h1, h2⟩ := scanP_cons_false jsonTok c rest h
    rw [removeJson.eq_2 c rest (not_json_shape c rest h1), ih h2]

theorem splitFence_mid : ∀ (m rest : List Char),
    scanP fenceTok (m ++ ['\x60', '\x60']) = false →
    splitFence (m ++ '\x60' :: '\x60' :: '\x60' :: rest) = m :: splitFence rest := by
  intro m
  induction m with
  | nil => intro rest _; rfl
  | cons c m' ih =>
    intro rest h
    obtain ⟨h1, h2⟩ := scanP_cons_false fenceTok c (m' ++ ['\x60', '\x60']) (by simpa using h)
    have cond : ∀ r', c = '\x60' →
        m' ++ '\x60' :: '\x60' :: '\x60' :: rest = '\x60' :: '\x60' :: r' → False := by
      intro r' hc hr
      subst hc
      apply absurd h1
      rw [Bool.not_eq_false]
      cases m' with
      | nil => decide
      | cons d m'' =>
        injection hr with hd hr2
        subst hd
        cases m'' with
        | nil => decide
        | cons e m''' =>
          injection hr2 with he hr3
          subst he
          simp [isPre, fenceTok]
    show splitFence (c :: (m' ++ '\x60' :: '\x60' :: '\x60' :: rest))
        = (c :: m') :: splitFence rest
    rw [splitFence.eq_2 c _ cond, ih rest h2]
    rfl

/-- Claim C3 counterexample: the fence handling removes every occurrence of
the four characters "json" from the fenced segment, not only a leading
language tag, so a valid JSON object text containing "json" in a string
value parses differently wrapped versus unwrapped. -/
theorem C3_counterexample :
    cleanOutput (wrapJson ("\x7b\"a\": \"json\"\x7d".toList))
        = "\x7b\"a\": \"\"\x7d".toList
    ∧ cleanOutput ("\x7b\"a\": \"json\"\x7d".toList) = "\x7b\"a\": \"json\"\x7d".toList
    ∧ jsonLoads (cleanOutput (wrapJson ("\x7b\"a\": \"json\"\x7d".toList)))
        ≠ jsonLoads (cleanOutput ("\x7b\"a\": \"json\"\x7d".toList)) := by
  refine ⟨by decide, by decide, ?_⟩
  intro h
  have h1 : Option.bind
      (jsonLoads (cleanOutput (wrapJson ("\x7b\"a\": \"json\"\x7d".toList))))
      (jstrAt "a".toList) = some [] := rfl
  rw [h] at h1
  have h2 : Option.bind
      (jsonLoads (cleanOutput ("\x7b\"a\": \"json\"\x7d".toList)))
      (jstrAt "a".toList) = some "json".toList := rfl
  rw [h1] at h2
  exact absurd h2 (by decide)

/-- Claim C3 amended: for every trimmed completion body that contains
neither a fence marker nor the four characters "json", parsing the
fence-wrapped form yields exactly the same result as parsing the unwrapped
form — the fence handling strips the whole segment clean; bodies containing
"json" anywhere are mangled, since all its occurrences are removed, not
only the leading language tag. -/
theorem C3_theorem (x : List Char)
    (hf : scanP fenceTok x = false) (hj : scanP jsonTok x = false)
    (hl : lstrip x = x) (hr : rstrip x = x) (hne : x ≠ []) :
    cleanOutput (wrapJson x) = x ∧ cleanOutput x = x
    ∧ jsonLoads (cleanOutput (wrapJson x)) = jsonLoads (cleanOutput x) := by
  obtain ⟨c0, x', hx0, hc0⟩ := head_not_ws_of_lstrip_eq x hl hne
  have hstrip : stripL x = x := by rw [stripL, hl, hr]
  have hpre : isPre fenceTok x = false :=
    isPre_false_of_scanP_false '\x60' ['\x60', '\x60'] x hf
  have hplain : cleanOutput x = x := by
    simp [cleanOutput, hstrip, hpre]
  have hW : wrapJson x
      = '\x60' :: '\x60' :: '\x60' :: 'j' :: 's' :: 'o' :: 'n' :: '\n'
        :: (x ++ ['\n', '\x60', '\x60', '\x60']) := rfl
  have hlW : lstrip (wrapJson x) = wrapJson x := by
    rw [hW]
    exact lstrip_cons_nws _ _ (by decide)
  have hW2 : wrapJson x
      = ('\x60' :: '\x60' :: '\x60' :: 'j' :: 's' :: 'o' :: 'n' :: '\n'
         :: (x ++ ['\n', '\x60', '\x60'])) ++ ['\x60'] := by
    rw [hW]
    simp [List.append_assoc]
  have hrW : rstrip (wrapJson x) = wrapJson x := by
    rw [hW2, rstrip_append_nws _ _ (by decide)]
  have hsW : stripL (wrapJson x) = wrapJson x := by
    rw [stripL, hlW, hrW]
  have hpreW : isPre fenceTok (wrapJson x) = true := by
    rw [hW]
    simp [isPre, fenceTok]
  have hb1 : scanP fenceTok (x ++ '\n' :: ['\x60', '\x60']) = false :=
    scanP_barrier fenceTok (by decide) '\n' (by decide) x ['\x60', '\x60'] hf (by decide)
  have hb2 := scanP_barrier fenceTok (by decide) '\n' (by decide) ['j', 's', 'o', 'n']
      (x ++ ['\n', '\x60', '\x60']) (by decide) hb1
  have hmid : scanP fenceTok
      (('j' :: 's' :: 'o' :: 'n' :: '\n' :: (x ++ ['\n'])) ++ ['\x60', '\x60']) = false := by
    simpa only [List.cons_append, List.nil_append, List.append_assoc] using hb2
  have hsplit : splitFence (wrapJson x)
      = [] :: ('j' :: 's' :: 'o' :: 'n' :: '\n' :: (x ++ ['\n'])) :: [[]] := by
    rw [hW, splitFence.eq_1]
    congr 1
    have hm := splitFence_mid ('j' :: 's' :: 'o' :: 'n' :: '\n' :: (x ++ ['\n'])) [] hmid
    rw [show splitFence ([] : List Char) = [[]] from rfl] at hm
    simpa only [List.cons_append, List.nil_append, List.append_assoc] using hm
  have hrj : removeJson ('j' :: 's' :: 'o' :: 'n' :: '\n' :: (x ++ ['\n']))
      = '\n' :: (x ++ ['\n']) := by
    rw [removeJson.eq_1]
    apply removeJson_id
    have hx1 : scanP jsonTok (x ++ '\n' :: []) = false :=
      scanP_barrier jsonTok (by decide) '\n' (by decide) x [] hj (by decide)
    exact scanP_barrier jsonTok (by decide) '\n' (by decide) [] (x ++ ['\n'])
      (by decide) hx1
  have hstripSeg : stripL ('\n' :: (x ++ ['\n'])) = x := by
    rw [stripL]
    have h1 : lstrip ('\n' :: (x ++ ['\n'])) = x ++ ['\n'] := by
      rw [lstrip_cons_ws _ _ (by decide), hx0]
      exact lstrip_cons_nws c0 (x' ++ ['\n']) hc0
    rw [h1, rstrip_append_ws x '\n' (by decide), hr]
  have hwrap : cleanOutput (wrapJson x) = x := by
    simp only [cleanOutput]
    rw [hsW, if_pos hpreW, hsplit]
    show stripL (removeJson ('j' :: 's' :: 'o' :: 'n' :: '\n' :: (x ++ ['\n']))) = x
    rw [hrj, hstripSeg]
  exact ⟨hwrap, hplain, by rw [hwrap, hplain]⟩

/-- Claim C3 witness: a concrete json-free object body parses identically
wrapped and unwrapped. -/
theorem C3_witness :
    cleanOutput (wrapJson ("\x7b\"a\": 1\x7d".toList)) = "\x7b\"a\": 1\x7d".toList
    ∧ jsonLoads (cleanOutput (wrapJson ("\x7b\"a\": 1\x7d".toList)))
        = jsonLoads (cleanOutput ("\x7b\"a\": 1\x7d".toList)) := by
  have h := C3_theorem ("\x7b\"a\": 1\x7d".toList) (by decide) (by decide) (by decide)
      (by decide) (by decide)
  exact ⟨h.1, h.2.2⟩
